import Mathlib

/-!
Shallow embedding of the Saidika support-bot classification core
(`src/app.py`): the emotion classifier `detect_emotion` and the
response-selection logic inlined in the `chat` view (lines 164-201),
modelled here as the function `respond` taking the text and the emotion
label.  Python's substring test `w in text` is modelled by `strIn`,
Python's `str.lower` by `lowerStr` (character-wise ASCII lowering, which
agrees with Python on all inputs relevant to the keyword sets, since
every keyword and override phrase is ASCII).
-/

namespace Saidika

/-- `leadsWith p s` is true when the char list `p` is an initial segment
of `s` (helper for the substring test). -/
def leadsWith : List Char → List Char → Bool
  | [], _ => true
  | _ :: _, [] => false
  | a :: as, b :: bs => a == b && leadsWith as bs

/-- `occursIn p s` is true when `p` occurs contiguously somewhere in `s`:
Python's `p in s` on strings viewed as char lists.  The empty pattern
occurs in every string, as in Python. -/
def occursIn (pat : List Char) : List Char → Bool
  | [] => leadsWith pat []
  | b :: bs => leadsWith pat (b :: bs) || occursIn pat bs

/-- Python's `needle in hay` on strings. -/
def strIn (needle hay : String) : Bool :=
  occursIn needle.data hay.data

/-- Python's `str.lower`, character-wise. -/
def lowerStr (s : String) : String :=
  String.mk (s.data.map Char.toLower)

/-- `any(w in text for w in ws)` from `detect_emotion`. -/
def anyIn (ws : List String) (text : String) : Bool :=
  ws.any (fun w => strIn w text)

def happy_words : List String := ["happy", "great", "good", "excited", "joy", "awesome"]

def sad_words : List String := ["sad", "unhappy", "down", "depressed", "cry", "hurt"]

def anxious_words : List String := ["anxious", "worried", "scared", "nervous", "panic"]

def angry_words : List String := ["angry", "mad", "frustrated", "annoyed"]

def hopeless_words : List String := ["hopeless", "tired of life", "give up", "can\x27t go on",
  "suicide", "kill myself", "end my life", "die"]

/-- `detect_emotion` from `src/app.py` lines 21-42.  The `Option` input
models Python's possibly-`None` argument; `(text or "")` maps `None`
(and only falsy values, i.e. the empty string, on which it is the
identity anyway) to `""`. -/
def detect_emotion (text : Option String) : String :=
  let t := lowerStr (text.getD "")
  if anyIn happy_words t then "happy"
  else if anyIn sad_words t then "sad"
  else if anyIn anxious_words t then "anxious"
  else if anyIn angry_words t then "angry"
  else if anyIn hopeless_words t then "crisis"
  else "neutral"

/-- The spec's `classify` on a plain (non-null) string. -/
def classify (s : String) : String := detect_emotion (some s)

/-- An alert row as created in the crisis branch of `chat`
(`Alert(user_id=..., risk="High", message=user_msg, time=ts)`); the
user id and timestamp are supplied by the surrounding framework and
carry no decision logic, so the record keeps the two fields the core
decides. -/
structure AlertRecord where
  risk : String
  message : String
deriving DecidableEq, Repr

def help_reply : String :=
  "🤝 Of course, I\x27m here to help you. What’s worrying you the most right now?"

def not_okay_reply : String :=
  "💛 I\x27m really sorry you\x27re feeling this way. You’re not alone — tell me more."

def alone_reply : String :=
  "🤍 Feeling alone can be heavy. I\x27m here with you — you don’t have to carry this alone."

def crisis_reply : String :=
  "🚨 I’m very concerned about your safety. If you feel in danger or are thinking about harming yourself, please contact emergency services or a hotline. You deserve care and safety."

/-- The canned-reply dict `responses` of `chat`. -/
def responses : List (String × String) :=
  [("happy", "😊 That\x27s wonderful! What made you feel good today?"),
   ("sad", "😢 I\x27m sorry you\x27re feeling low. Want to talk about it?"),
   ("anxious", "😟 Anxiety can be overwhelming. What\x27s worrying you?"),
   ("angry", "😠 Your feelings are valid. What triggered the anger?"),
   ("neutral", "🙂 I\x27m here with you. Tell me more when you\x27re ready.")]

/-- `responses.get(emotion, default)`. -/
def dictGet (d : List (String × String)) (k dflt : String) : String :=
  match d.lookup k with
  | some v => v
  | none => dflt

/-- The response-selection logic of `chat` (`src/app.py` lines 164-201):
given the user message and the emotion label (`emotion =
detect_emotion(user_msg)` at the call site, but a free parameter of the
branch structure), produce the bot reply and the alert record raised, if
any.  The alert is `some ...` exactly when the crisis branch runs; the
surrounding DB commit is framework glue. -/
def respond (user_msg : String) (emotion : String) : String × Option AlertRecord :=
  let t := lowerStr user_msg
  if strIn "help" t || strIn "assist" t || strIn "support" t then
    (help_reply, none)
  else if strIn "not okay" t || strIn "hurt" t || strIn "pain" t then
    (not_okay_reply, none)
  else if strIn "alone" t || strIn "lonely" t then
    (alone_reply, none)
  else if emotion == "crisis" then
    (crisis_reply, some { risk := "High", message := user_msg })
  else
    (dictGet responses emotion "I\x27m here with you. Tell me more.", none)

/-- The eight literal override phrases of branches 1-3 of `respond`. -/
def overridePhrases : List String :=
  ["help", "assist", "support", "not okay", "hurt", "pain", "alone", "lonely"]

/-- Some override phrase occurs in the lowercased text, i.e. one of the
three override branches of `respond` fires. -/
def hasOverride (text : String) : Bool :=
  overridePhrases.any (fun w => strIn w (lowerStr text))

/-- The six emotion labels. -/
def allLabels : List String :=
  ["happy", "sad", "anxious", "angry", "crisis", "neutral"]

/-! ### Helper lemmas -/

/-- `Char.toLower` is idempotent: lowering lands outside the upper-case
ASCII range. -/
theorem toLower_idem (c : Char) : Char.toLower (Char.toLower c) = Char.toLower c := by
  by_cases h : c.toNat ≥ 65 ∧ c.toNat ≤ 90
  · have hv : Nat.isValidChar (c.toNat + 32) := Or.inl (by omega)
    have ht : (Char.ofNat (c.toNat + 32)).toNat = c.toNat + 32 := by
      rw [Char.ofNat, dif_pos hv]; rfl
    simp only [Char.toLower, if_pos h]
    rw [if_neg (by rw [ht]; omega)]
  · simp only [Char.toLower, if_neg h]

/-- Lowering a string twice is the same as lowering it once. -/
theorem lowerStr_idem (s : String) : lowerStr (lowerStr s) = lowerStr s := by
  simp only [lowerStr]
  rw [List.map_map]
  exact congrArg String.mk (List.map_congr_left (fun a _ => toLower_idem a))

/-- A character-wise map preserves leading segments. -/
theorem leadsWith_map (f : Char → Char) :
    ∀ p s, leadsWith p s = true → leadsWith (p.map f) (s.map f) = true := by
  intro p
  induction p with
  | nil => intro s _; simp [leadsWith, List.map]
  | cons a as ih =>
    intro s hs
    cases s with
    | nil => simp [leadsWith] at hs
    | cons b bs =>
      simp only [leadsWith, Bool.and_eq_true, beq_iff_eq] at hs
      simp only [List.map, leadsWith, Bool.and_eq_true, beq_iff_eq]
      exact ⟨congrArg f hs.1, ih bs hs.2⟩

/-- A character-wise map preserves occurrence of a contiguous pattern. -/
theorem occursIn_map (f : Char → Char) (p : List Char) :
    ∀ s, occursIn p s = true → occursIn (p.map f) (s.map f) = true := by
  intro s
  induction s with
  | nil =>
    intro h
    simpa [occursIn] using leadsWith_map f p [] (by simpa [occursIn] using h)
  | cons b bs ih =>
    intro h
    simp only [occursIn, Bool.or_eq_true] at h
    simp only [List.map, occursIn, Bool.or_eq_true]
    rcases h with h | h
    · exact Or.inl (by simpa [List.map] using leadsWith_map f p (b :: bs) h)
    · exact Or.inr (ih h)

/-- A pattern that is already lower case and occurs in `s` also occurs
in the lowercased `s`. -/
theorem strIn_lowerStr (w s : String) (hw : lowerStr w = w) :
    strIn w s = true → strIn w (lowerStr s) = true := by
  intro h
  have h2 := occursIn_map Char.toLower w.data s.data h
  have hwdata : w.data.map Char.toLower = w.data := congrArg String.data hw
  simpa [strIn, lowerStr, hwdata] using h2

theorem classify_of_happy (s : String) (h : anyIn happy_words (lowerStr s) = true) :
    classify s = "happy" := by
  simp [classify, detect_emotion, h]

theorem classify_of_sad (s : String) (h1 : anyIn happy_words (lowerStr s) = false)
    (h2 : anyIn sad_words (lowerStr s) = true) : classify s = "sad" := by
  simp [classify, detect_emotion, h1, h2]

theorem classify_of_anxious (s : String) (h1 : anyIn happy_words (lowerStr s) = false)
    (h2 : anyIn sad_words (lowerStr s) = false)
    (h3 : anyIn anxious_words (lowerStr s) = true) : classify s = "anxious" := by
  simp [classify, detect_emotion, h1, h2, h3]

theorem classify_of_angry (s : String) (h1 : anyIn happy_words (lowerStr s) = false)
    (h2 : anyIn sad_words (lowerStr s) = false)
    (h3 : anyIn anxious_words (lowerStr s) = false)
    (h4 : anyIn angry_words (lowerStr s) = true) : classify s = "angry" := by
  simp [classify, detect_emotion, h1, h2, h3, h4]

theorem classify_of_crisis (s : String) (h1 : anyIn happy_words (lowerStr s) = false)
    (h2 : anyIn sad_words (lowerStr s) = false)
    (h3 : anyIn anxious_words (lowerStr s) = false)
    (h4 : anyIn angry_words (lowerStr s) = false)
    (h5 : anyIn hopeless_words (lowerStr s) = true) : classify s = "crisis" := by
  simp [classify, detect_emotion, h1, h2, h3, h4, h5]

theorem classify_of_no_match (s : String) (h1 : anyIn happy_words (lowerStr s) = false)
    (h2 : anyIn sad_words (lowerStr s) = false)
    (h3 : anyIn anxious_words (lowerStr s) = false)
    (h4 : anyIn angry_words (lowerStr s) = false)
    (h5 : anyIn hopeless_words (lowerStr s) = false) : classify s = "neutral" := by
  simp [classify, detect_emotion, h1, h2, h3, h4, h5]

/-- Every output of `detect_emotion` is one of the six labels. -/
theorem detect_emotion_mem_allLabels (t : Option String) :
    detect_emotion t ∈ allLabels := by
  simp only [detect_emotion, allLabels]
  repeat' split
  all_goals simp

/-- `respond` raises no alert when the label is not `crisis`, whatever
the text. -/
theorem respond_no_alert_of_ne_crisis (text label : String) (h : label ≠ "crisis") :
    (respond text label).2 = none := by
  simp only [respond]
  repeat' split
  all_goals simp_all

/-! ### Claim theorems -/

/-- C1: `classify` checks the five keyword sets in the fixed priority
order happy, sad, anxious, angry, crisis, using substring containment on
the lowercased text with first-match-wins (lower-priority sets are not
consulted once a higher one matches), and returns neutral when no
keyword of any set occurs; in particular, a text containing both
"happy" and "sad" classifies as happy. -/
theorem classify_priority_order (s : String) :
    (anyIn happy_words (lowerStr s) = true → classify s = "happy")
  ∧ (anyIn happy_words (lowerStr s) = false → anyIn sad_words (lowerStr s) = true →
      classify s = "sad")
  ∧ (anyIn happy_words (lowerStr s) = false → anyIn sad_words (lowerStr s) = false →
      anyIn anxious_words (lowerStr s) = true → classify s = "anxious")
  ∧ (anyIn happy_words (lowerStr s) = false → anyIn sad_words (lowerStr s) = false →
      anyIn anxious_words (lowerStr s) = false → anyIn angry_words (lowerStr s) = true →
      classify s = "angry")
  ∧ (anyIn happy_words (lowerStr s) = false → anyIn sad_words (lowerStr s) = false →
      anyIn anxious_words (lowerStr s) = false → anyIn angry_words (lowerStr s) = false →
      anyIn hopeless_words (lowerStr s) = true → classify s = "crisis")
  ∧ (anyIn happy_words (lowerStr s) = false → anyIn sad_words (lowerStr s) = false →
      anyIn anxious_words (lowerStr s) = false → anyIn angry_words (lowerStr s) = false →
      anyIn hopeless_words (lowerStr s) = false → classify s = "neutral")
  ∧ (strIn "happy" s = true → strIn "sad" s = true → classify s = "happy") := by
  refine ⟨classify_of_happy s, classify_of_sad s, classify_of_anxious s,
    classify_of_angry s, classify_of_crisis s, classify_of_no_match s, ?_⟩
  intro hh _
  apply classify_of_happy
  have h1 : strIn "happy" (lowerStr s) = true :=
    strIn_lowerStr "happy" s (by decide) hh
  simp [anyIn, happy_words, h1]

/-- C1 witness: at the concrete input "happy and sad" the final conjunct
applies and yields "happy". -/
theorem classify_priority_order_witness :
    classify "happy and sad" = "happy" :=
  (classify_priority_order "happy and sad").2.2.2.2.2.2 (by decide) (by decide)

/-- C5: `classify` is total with no error conditions: the empty string
classifies as neutral, a null input is treated as the empty string and
classifies as neutral, and every string is mapped to one of the six
labels. -/
theorem classify_total (s : String) :
    classify "" = "neutral"
  ∧ detect_emotion none = "neutral"
  ∧ detect_emotion none = detect_emotion (some "")
  ∧ classify s ∈ ["happy", "sad", "anxious", "angry", "crisis", "neutral"] := by
  refine ⟨by decide, by decide, by decide, ?_⟩
  have h := detect_emotion_mem_allLabels (some s)
  simpa [allLabels, classify] using h

set_option maxRecDepth 4000 in
/-- C6: the input "I feel hopeless and want to die" classifies as
crisis, and `respond` on it with label crisis returns the
safety-concern reply together with exactly one alert of risk "High"
whose message is the original text. -/
theorem crisis_example :
    classify "I feel hopeless and want to die" = "crisis"
  ∧ respond "I feel hopeless and want to die" "crisis"
      = (crisis_reply, some { risk := "High", message := "I feel hopeless and want to die" }) := by
  exact ⟨by decide, by decide⟩

/-- C7: "I'm hurt" classifies as sad (via the keyword "hurt"), but
`respond` fires override branch 2 because "hurt" is present, returning
the empathetic "not okay" reply — which differs from the sad canned
reply — and raising no alert. -/
theorem hurt_example :
    classify "I\x27m hurt" = "sad"
  ∧ respond "I\x27m hurt" (classify "I\x27m hurt") = (not_okay_reply, none)
  ∧ not_okay_reply ≠ dictGet responses "sad" "I\x27m here with you. Tell me more." := by
  exact ⟨by decide, by decide, by decide⟩

/-- C8: `classify` case-folds its input before matching, so it returns
the same label on a string and on its lowercased form; e.g. "HAPPY"
classifies the same as "happy". -/
theorem classify_lower_invariant (s : String) :
    classify s = classify (lowerStr s)
  ∧ classify "HAPPY" = classify "happy"
  ∧ classify "HAPPY" = "happy" := by
  refine ⟨?_, by decide, by decide⟩
  simp only [classify, detect_emotion, Option.getD, lowerStr_idem]

/-- C9: `classify` is deterministic (equal inputs give equal labels; it
is a pure function of its argument) and its output always lies in the
fixed six-element label set. -/
theorem classify_deterministic_and_total (s1 s2 : String) :
    (s1 = s2 → classify s1 = classify s2)
  ∧ classify s1 ∈ ["happy", "sad", "anxious", "angry", "crisis", "neutral"] := by
  refine ⟨fun h => congrArg classify h, ?_⟩
  have h := detect_emotion_mem_allLabels (some s1)
  simpa [allLabels, classify] using h

/-- C9 witness: the determinism conjunct at a concrete input. -/
theorem classify_deterministic_and_total_witness :
    classify "fine" = classify "fine"
  ∧ classify "fine" ∈ ["happy", "sad", "anxious", "angry", "crisis", "neutral"] :=
  ⟨(classify_deterministic_and_total "fine" "fine").1 rfl,
   (classify_deterministic_and_total "fine" "fine").2⟩

/-- C2: `respond` raises an alert iff the supplied label is crisis and
no override phrase of branches 1-3 occurs in the (lowercased) text; when
raised the alert is unique, has risk "High" and carries the original
(non-lowercased) text as message, and the reply is the safety-concern
reply. -/
theorem respond_alert_iff (text label : String) :
    ((respond text label).2 ≠ none ↔ (label = "crisis" ∧ hasOverride text = false))
  ∧ ((respond text label).2 = none ∨
      ((respond text label).2 = some { risk := "High", message := text }
        ∧ (respond text label).1 = crisis_reply)) := by
  have hover : hasOverride text =
      (strIn "help" (lowerStr text) || (strIn "assist" (lowerStr text) ||
        (strIn "support" (lowerStr text) || (strIn "not okay" (lowerStr text) ||
        (strIn "hurt" (lowerStr text) || (strIn "pain" (lowerStr text) ||
        (strIn "alone" (lowerStr text) || strIn "lonely" (lowerStr text)))))))) := by
    simp only [hasOverride, overridePhrases, List.any_cons, List.any_nil, Bool.or_false]
  by_cases h1 : (strIn "help" (lowerStr text) || strIn "assist" (lowerStr text) ||
      strIn "support" (lowerStr text)) = true
  · have ho : hasOverride text = true := by
      rw [hover]; rcases Bool.or_eq_true_iff.mp h1 with h | h
      · rcases Bool.or_eq_true_iff.mp h with h | h <;> simp [h]
      · simp [h]
    exact ⟨by simp [respond, h1, ho], Or.inl (by simp [respond, h1])⟩
  · simp only [Bool.not_eq_true, Bool.or_eq_false_iff] at h1
    obtain ⟨⟨ha, hb⟩, hc⟩ := h1
    by_cases h2 : (strIn "not okay" (lowerStr text) || strIn "hurt" (lowerStr text) ||
        strIn "pain" (lowerStr text)) = true
    · have ho : hasOverride text = true := by
        rw [hover]; rcases Bool.or_eq_true_iff.mp h2 with h | h
        · rcases Bool.or_eq_true_iff.mp h with h | h <;> simp [h]
        · simp [h]
      exact ⟨by simp [respond, ha, hb, hc, h2, ho], Or.inl (by simp [respond, ha, hb, hc, h2])⟩
    · simp only [Bool.not_eq_true, Bool.or_eq_false_iff] at h2
      obtain ⟨⟨hd, he⟩, hf⟩ := h2
      by_cases h3 : (strIn "alone" (lowerStr text) || strIn "lonely" (lowerStr text)) = true
      · have ho : hasOverride text = true := by
          rw [hover]; rcases Bool.or_eq_true_iff.mp h3 with h | h <;> simp [h]
        exact ⟨by simp [respond, ha, hb, hc, hd, he, hf, h3, ho],
          Or.inl (by simp [respond, ha, hb, hc, hd, he, hf, h3])⟩
      · simp only [Bool.not_eq_true, Bool.or_eq_false_iff] at h3
        obtain ⟨hg, hh⟩ := h3
        have ho : hasOverride text = false := by
          rw [hover]; simp [ha, hb, hc, hd, he, hf, hg, hh]
        by_cases hl : label = "crisis"
        · refine ⟨by simp [respond, ha, hb, hc, hd, he, hf, hg, hh, hl, ho], Or.inr ?_⟩
          constructor <;> simp [respond, ha, hb, hc, hd, he, hf, hg, hh, hl]
        · exact ⟨by simp [respond, ha, hb, hc, hd, he, hf, hg, hh, hl, ho],
            Or.inl (by simp [respond, ha, hb, hc, hd, he, hf, hg, hh, hl])⟩

set_option maxRecDepth 4000 in
/-- C3: a string containing both a crisis keyword and a keyword of a
higher-priority emotion set, and none of the override phrases,
classifies as the higher-priority label — never crisis — so `respond`
on it raises no alert; e.g. "I am sad and want to kill myself" is sad
and gets the sad canned reply with no alert. -/
theorem higher_priority_masks_crisis (s : String)
    (_hcr : anyIn hopeless_words (lowerStr s) = true)
    (hhi : (anyIn happy_words (lowerStr s) || anyIn sad_words (lowerStr s) ||
        anyIn anxious_words (lowerStr s) || anyIn angry_words (lowerStr s)) = true)
    (_hov : hasOverride s = false) :
    classify s ∈ ["happy", "sad", "anxious", "angry"]
  ∧ classify s ≠ "crisis"
  ∧ (respond s (classify s)).2 = none
  ∧ classify "I am sad and want to kill myself" = "sad"
  ∧ respond "I am sad and want to kill myself" "sad"
      = ("😢 I\x27m sorry you\x27re feeling low. Want to talk about it?", none) := by
  have hmem : classify s ∈ ["happy", "sad", "anxious", "angry"] := by
    by_cases h1 : anyIn happy_words (lowerStr s) = true
    · simp [classify_of_happy s h1]
    · simp only [Bool.not_eq_true] at h1
      by_cases h2 : anyIn sad_words (lowerStr s) = true
      · simp [classify_of_sad s h1 h2]
      · simp only [Bool.not_eq_true] at h2
        by_cases h3 : anyIn anxious_words (lowerStr s) = true
        · simp [classify_of_anxious s h1 h2 h3]
        · simp only [Bool.not_eq_true] at h3
          by_cases h4 : anyIn angry_words (lowerStr s) = true
          · simp [classify_of_angry s h1 h2 h3 h4]
          · simp only [Bool.not_eq_true] at h4
            rw [h1, h2, h3, h4] at hhi
            simp at hhi
  have hne : classify s ≠ "crisis" := by
    simp only [List.mem_cons, List.not_mem_nil, or_false] at hmem
    rcases hmem with h | h | h | h <;> rw [h] <;> decide
  exact ⟨hmem, hne, respond_no_alert_of_ne_crisis s (classify s) hne, by decide, by decide⟩

/-- C3 witness: the theorem applied at the concrete input
"I am sad and want to kill myself". -/
theorem higher_priority_masks_crisis_witness :
    classify "I am sad and want to kill myself" ∈ ["happy", "sad", "anxious", "angry"]
  ∧ (respond "I am sad and want to kill myself"
      (classify "I am sad and want to kill myself")).2 = none := by
  have h := higher_priority_masks_crisis "I am sad and want to kill myself"
    (by decide) (by decide) (by decide)
  exact ⟨h.1, h.2.2.1⟩

/-- C4: any text containing "help", "assist" or "support" gets the
offer-to-help reply and no alert from `respond`, whatever the label —
including crisis. -/
theorem respond_help_always (text label : String)
    (h : strIn "help" text = true ∨ strIn "assist" text = true ∨
      strIn "support" text = true) :
    (respond text label).1 = help_reply ∧ (respond text label).2 = none := by
  have hc : (strIn "help" (lowerStr text) || strIn "assist" (lowerStr text) ||
      strIn "support" (lowerStr text)) = true := by
    rcases h with h | h | h
    · simp [strIn_lowerStr "help" text (by decide) h]
    · simp [strIn_lowerStr "assist" text (by decide) h]
    · simp [strIn_lowerStr "support" text (by decide) h]
  constructor <;> simp [respond, hc]

/-- C4 witness: the theorem at "please help me" with label crisis. -/
theorem respond_help_always_witness :
    (respond "please help me" "crisis").1 = help_reply
  ∧ (respond "please help me" "crisis").2 = none :=
  respond_help_always "please help me" "crisis" (Or.inl (by decide))

/-- C10: `respond` lowercases the text before the override checks, so
its reply and its alert decision agree on a text and on its lowercased
form; e.g. "HELP ME" triggers the help branch for every label. -/
theorem respond_lower_invariant (text label : String) :
    (respond text label).1 = (respond (lowerStr text) label).1
  ∧ (respond text label).2.isSome = (respond (lowerStr text) label).2.isSome
  ∧ respond "HELP ME" label = (help_reply, none) := by
  have h3 : respond "HELP ME" label = (help_reply, none) := by
    have hc : (strIn "help" (lowerStr "HELP ME") || strIn "assist" (lowerStr "HELP ME") ||
        strIn "support" (lowerStr "HELP ME")) = true := by decide
    simp [respond, hc]
  refine ⟨?_, ?_, h3⟩ <;>
  · simp only [respond, lowerStr_idem]
    by_cases h1 : (strIn "help" (lowerStr text) || strIn "assist" (lowerStr text) ||
        strIn "support" (lowerStr text)) = true
    · simp [h1]
    · simp only [Bool.not_eq_true] at h1
      by_cases h2 : (strIn "not okay" (lowerStr text) || strIn "hurt" (lowerStr text) ||
          strIn "pain" (lowerStr text)) = true
      · simp [h1, h2]
      · simp only [Bool.not_eq_true] at h2
        by_cases h4 : (strIn "alone" (lowerStr text) || strIn "lonely" (lowerStr text)) = true
        · simp [h1, h2, h4]
        · simp only [Bool.not_eq_true] at h4
          by_cases hl : (label == "crisis") = true
          · simp [h1, h2, h4, hl]
          · simp only [Bool.not_eq_true] at hl
            simp [h1, h2, h4, hl]

end Saidika
